import Mathlib

/-!
Verification of the spotify-module repository.

This file shallowly embeds the parts of the code base that the specification
claims talk about:

* `src/spotify_module/playback_controller.py` — playback-session state,
  `set_volume`, `start_playback`, `start_volume_ramp`, `_volume_ramp_worker`,
  `stop_volume_ramp`;
* `src/spotify_module/playlist_manager.py` — `search_playlists` merge and
  deduplication, `get_playlist_tracks` pagination;
* `src/spotify_module/device_manager.py` — `stop_spotifyd`, `install_spotifyd`;
* `src/spotify_module/platform_detector.py` — `PlatformDetector.__init__` and
  `_get_spotifyd_binary_name`.

Remote HTTP calls, filesystem writes and process signals are modelled as
explicit effect lists; the host environment and the remote data that the code
reads (search result pages, process table, release assets) are passed in as
explicit parameters.  Machine integers are `Int`, Python float division is
modelled exactly by `Rat` (all quantities involved are exact decimals).
-/

/-! ## Playback controller (src/spotify_module/playback_controller.py) -/

/-- A remote-API request issued by the playback controller (calls into the
`spotipy` client).  Recording these lets the theorems state that a rejected
operation issues no remote request. -/
inductive ApiCall where
  | setVolume (volume : Int) (deviceId : Option String)
  | startPlayback (deviceId : String) (uris : List String)
deriving DecidableEq

/-- The mutable fields of `PlaybackController` touched by the claims:
`self.device_id`, `self._is_playing`, `self._current_volume`,
`self._volume_ramp_active`, `self._current_playlist`, `self._current_tracks`. -/
structure PCState where
  deviceId : Option String
  isPlaying : Bool
  currentVolume : Int
  volumeRampActive : Bool
  currentPlaylist : Option String
  currentTracks : List String
deriving DecidableEq

/-- `PlaybackController.__init__(spotify_client, device_id)`: fresh state with
volume 50, nothing playing, no ramp active (lines 18-32). -/
def PlaybackController.initState (deviceId : Option String) : PCState :=
  { deviceId := deviceId
    isPlaying := false
    currentVolume := 50
    volumeRampActive := false
    currentPlaylist := none
    currentTracks := [] }

/-- Result of one controller operation: the new session state, the remote API
calls it issued, and the boolean the Python method returns. -/
structure OpResult where
  state : PCState
  calls : List ApiCall
  ok : Bool
deriving DecidableEq

/-- `PlaybackController.set_volume(volume)` (lines 183-205).  The range check
`if not 0 <= volume <= 100` rejects before any remote call; otherwise
`self.sp.volume(...)` is issued and `self._current_volume` updated.  The
remote call is modelled as succeeding (a transport failure would be caught
and also return `False` with the state unchanged). -/
def set_volume (volume : Int) (s : PCState) : OpResult :=
  if 0 ≤ volume ∧ volume ≤ 100 then
    { state := { s with currentVolume := volume }
      calls := [ApiCall.setVolume volume s.deviceId]
      ok := true }
  else
    { state := s, calls := [], ok := false }

/-- Python truthiness of an optional string: `None` and `""` are falsy. -/
def pyTruthy : Option String → Bool
  | none => false
  | some str => str ≠ ""

/-- `PlaybackController.start_playback(track_uris, device_id)` (lines 111-140).
`target_device = device_id or self.device_id`; with no truthy target the call
logs an error and returns `False` without touching state or the remote API. -/
def start_playback (trackUris : List String) (deviceIdArg : Option String)
    (s : PCState) : OpResult :=
  let target := if pyTruthy deviceIdArg then deviceIdArg else s.deviceId
  match target with
  | none => { state := s, calls := [], ok := false }
  | some d =>
    if d = "" then { state := s, calls := [], ok := false }
    else
      { state := { s with isPlaying := true, currentTracks := trackUris }
        calls := [ApiCall.startPlayback d trackUris]
        ok := true }

/-- The arguments `start_volume_ramp` hands to the background worker thread
(line 295-298): `(start_volume, end_volume, increment, delay_per_increment)`. -/
structure RampLaunch where
  startVolume : Int
  endVolume : Int
  increment : Int
  delay : Rat
deriving DecidableEq

/-- Result of `start_volume_ramp`: state, issued calls, returned boolean, and
the worker launch (if a background thread was started). -/
structure StartRampResult where
  state : PCState
  calls : List ApiCall
  ok : Bool
  launched : Option RampLaunch
deriving DecidableEq

/-- `PlaybackController.start_volume_ramp(start_volume, end_volume,
duration_seconds, increment)` (lines 264-306).  Rejected while a ramp is
active.  `total_increments = (end_volume - start_volume) // increment` is
Python floor division (`Int.fdiv`); with `increment = 0` that line raises
`ZeroDivisionError`, which the enclosing `try` turns into a plain `False`
return.  `delay_per_increment = duration_seconds / total_increments` is float
division, exact here, with fallback 1 when `total_increments <= 0`.  The
initial `self.set_volume(start_volume)` happens synchronously before the
worker thread is started; its boolean result is ignored. -/
def start_volume_ramp (startVolume endVolume durationSeconds increment : Int)
    (s : PCState) : StartRampResult :=
  if s.volumeRampActive then
    { state := s, calls := [], ok := false, launched := none }
  else if increment = 0 then
    { state := s, calls := [], ok := false, launched := none }
  else
    let totalIncrements : Int := Int.fdiv (endVolume - startVolume) increment
    let delayPerIncrement : Rat :=
      if 0 < totalIncrements then (durationSeconds : Rat) / (totalIncrements : Rat) else 1
    let r := set_volume startVolume s
    { state := { r.state with volumeRampActive := true }
      calls := r.calls
      ok := true
      launched := some { startVolume := startVolume, endVolume := endVolume,
                         increment := increment, delay := delayPerIncrement } }

/-- `PlaybackController._volume_ramp_worker(start_volume, end_volume,
increment, delay)` (lines 308-333), as a function of the iterations it runs.
`cancel n` models the worker observing, at the start of iteration `n`, that
`self._stop_background` was set or `self._volume_ramp_active` was cleared by
a concurrent `stop_volume_ramp` — both checks happen before that iteration
applies its volume step, so they collapse to one observation point.  Each
live iteration advances the local `current_volume` by `increment` clamped to
`end_volume` and calls `self.set_volume`; on exit (loop condition false or
cancellation observed) the worker clears `self._volume_ramp_active`.  `fuel`
bounds the number of iterations the model runs; `none` means the loop did not
exit within `fuel` iterations. -/
def volume_ramp_worker (cancel : Nat → Bool) (endVolume increment : Int) :
    Nat → Nat → Int → PCState → Option PCState
  | 0, n, currentVolume, s =>
    if currentVolume < endVolume ∧ cancel n = false then none
    else some { s with volumeRampActive := false }
  | fuel + 1, n, currentVolume, s =>
    if currentVolume < endVolume ∧ cancel n = false then
      let current2 := min (currentVolume + increment) endVolume
      volume_ramp_worker cancel endVolume increment fuel (n + 1) current2
        (set_volume current2 s).state
    else some { s with volumeRampActive := false }

/-- `PlaybackController.stop_volume_ramp()` (lines 335-347): clears the
active flag and returns `True` if a ramp is active, otherwise logs
"No active volume ramp to stop" and returns `False`. -/
def stop_volume_ramp (s : PCState) : PCState × Bool :=
  if s.volumeRampActive then ({ s with volumeRampActive := false }, true)
  else (s, false)

/-- The schedule in which cancellation is observed at iteration `k` of the
ramp worker (a `stop_volume_ramp` arriving mid-run). -/
def cancelAt (k : Nat) : Nat → Bool := fun n => decide (n = k)

/-- The schedule in which the ramp is never cancelled. -/
def noCancel : Nat → Bool := fun _ => false

/-- The session state right after `start_volume_ramp(10, 80, 300, 2)` on a
fresh controller: volume 10, ramp active. -/
def rampStartState : PCState :=
  (start_volume_ramp 10 80 300 2 (PlaybackController.initState (some "device-1"))).state

/-! ## Playlist manager (src/spotify_module/playlist_manager.py) -/

/-- The playlist record built by both search branches (lines 72-81 and
105-114). -/
structure Playlist where
  id : String
  name : String
  owner : String
  trackCount : Nat
  isOwn : Bool
  isPublic : Bool
  description : String
  uri : String
deriving DecidableEq

/-- The deduplication loop of `search_playlists` (lines 41-47): walk the
combined list, keep a `seen_ids` set, append a playlist only when its id is
unseen. -/
def dedup_by_id (seenIds : List String) : List Playlist → List Playlist
  | [] => []
  | p :: rest =>
    if p.id ∈ seenIds then dedup_by_id seenIds rest
    else p :: dedup_by_id (p.id :: seenIds) rest

/-- `PlaylistManager.search_playlists(query, limit)` (lines 19-54), with the
two remote search branches abstracted as their result lists:
`user_playlists = self._search_user_playlists(query, limit // 2)` and
`public_playlists = self._search_public_playlists(query, limit -
len(user_playlists))`.  The code concatenates own results first, deduplicates
by id first-seen-wins, and truncates to `limit`. -/
def search_playlists (userPlaylists publicPlaylists : List Playlist)
    (limit : Nat) : List Playlist :=
  (dedup_by_id [] (userPlaylists ++ publicPlaylists)).take limit

/-- One page of `self.sp.playlist_tracks(playlist_id, offset=offset,
limit=100)`: the items at `[offset, offset+100)`, where each item's track/uri
may be missing (`none`); the response's `next` field is non-null exactly when
`offset + 100 < total`. -/
def playlist_tracks_page (tracks : List (Option String)) (offset : Nat) :
    List (Option String) × Bool :=
  ((tracks.drop offset).take 100, decide (offset + 100 < tracks.length))

/-- The `while True` pagination loop of `get_playlist_tracks`
(lines 171-181): fetch a page, append the present URIs in page order, stop
when `next` is null, else advance `offset` by 100.  Also counts the page
fetches issued.  `fuel` bounds the iterations; `none` means the loop did not
finish within `fuel` fetches. -/
def get_playlist_tracks_loop (tracks : List (Option String)) :
    Nat → Nat → List String → Nat → Option (List String × Nat)
  | 0, _, _, _ => none
  | fuel + 1, offset, acc, fetches =>
    let page := playlist_tracks_page tracks offset
    let acc2 := acc ++ page.1.filterMap id
    if page.2 then get_playlist_tracks_loop tracks fuel (offset + 100) acc2 (fetches + 1)
    else some (acc2, fetches + 1)

/-- `PlaylistManager.get_playlist_tracks(playlist_id)` (lines 155-188),
returning the collected track URIs and the number of page fetches issued. -/
def get_playlist_tracks (tracks : List (Option String)) (fuel : Nat) :
    Option (List String × Nat) :=
  get_playlist_tracks_loop tracks fuel 0 [] 0

/-! ## Device manager (src/spotify_module/device_manager.py) -/

/-- The host state `DeviceManager` reads: whether the spotifyd binary is
installed (exists and executable) and the pid found by the name-based scan of
the process table (`none` when no spotifyd process exists). -/
structure DMState where
  installed : Bool
  runningPid : Option Int
deriving DecidableEq

/-- A side effect of a `DeviceManager` operation: a network request, a
filesystem change, or a signal sent to a process. -/
inductive DMEffect where
  | networkFetch (what : String)
  | fsWrite (what : String)
  | sendSignal (pid : Int) (sig : Int)
deriving DecidableEq

def SIGTERM : Int := 15

def SIGKILL : Int := 9

/-- `DeviceManager.get_spotifyd_pid()` (lines 68-82): the heuristic process
scan, a pure read of the host process table. -/
def get_spotifyd_pid (s : DMState) : Option Int := s.runningPid

/-- `DeviceManager.stop_spotifyd()` (lines 308-331).  With a pid found
(Python `if pid:` — note `0` would be falsy) it sends SIGTERM, re-checks
after a grace period (`stillRunningAfterTerm`, an external outcome), and
force-kills if needed; with no pid it logs "spotifyd is not running" and
returns `True` with no signal sent. -/
def stop_spotifyd (s : DMState) (stillRunningAfterTerm : Bool) :
    List DMEffect × Bool :=
  match get_spotifyd_pid s with
  | some pid =>
    if pid ≠ 0 then
      if stillRunningAfterTerm then
        ([DMEffect.sendSignal pid SIGTERM, DMEffect.sendSignal pid SIGKILL], true)
      else ([DMEffect.sendSignal pid SIGTERM], true)
    else ([], true)
  | none => ([], true)

/-- Python `pattern in text` on strings: `pattern` occurs contiguously in
`text`. -/
def strContains (text pattern : String) : Bool :=
  (List.range (text.toList.length + 1)).any
    (fun i => decide (((text.toList.drop i).take pattern.toList.length) = pattern.toList))

/-- The external data `install_spotifyd` consumes: the release assets
`(name, browser_download_url)` from the metadata endpoint, the platform
binary name to match, and the outcome of the download-and-extract step
(external I/O). -/
structure InstallEnv where
  assets : List (String × String)
  binaryName : String
  downloadExtractOk : Bool
deriving DecidableEq

/-- `DeviceManager._get_download_url()` (lines 118-141): one network fetch of
the release metadata, then the first asset whose name contains the platform
binary name. -/
def _get_download_url (env : InstallEnv) : List DMEffect × Option String :=
  ([DMEffect.networkFetch "releases-metadata"],
   (env.assets.find? (fun a => strContains a.1 env.binaryName)).map Prod.snd)

/-- `DeviceManager.install_spotifyd(force_reinstall)` (lines 84-116).
Already installed and not forced: immediate `True`, no effect.  Otherwise it
creates the target directory, resolves the download URL (failing with `False`
if no asset matches), downloads and extracts the binary (outcome modelled by
`env.downloadExtractOk`), and marks it executable. -/
def install_spotifyd (s : DMState) (forceReinstall : Bool) (env : InstallEnv) :
    List DMEffect × Bool :=
  if s.installed && !forceReinstall then ([], true)
  else
    let mkdir := [DMEffect.fsWrite "mkdir-bin-dir"]
    let gd := _get_download_url env
    match gd.2 with
    | none => (mkdir ++ gd.1, false)
    | some url =>
      if env.downloadExtractOk then
        (mkdir ++ gd.1 ++
          [DMEffect.networkFetch url, DMEffect.fsWrite "spotifyd-binary",
           DMEffect.fsWrite "chmod-755"], true)
      else (mkdir ++ gd.1 ++ [DMEffect.networkFetch url], false)

/-! ## Platform detector (src/spotify_module/platform_detector.py) -/

/-- The host facts `PlatformDetector` reads: `platform.system().lower()`,
`platform.machine().lower()`, whether the Raspberry-Pi file probes match,
whether PulseAudio / ALSA are present, and the GUI environment variables. -/
structure HostEnv where
  system : String
  machine : String
  piProbe : Bool
  pulseaudioPresent : Bool
  alsaPresent : Bool
  displaySet : Bool
  waylandSet : Bool
deriving DecidableEq

/-- `PlatformDetector._is_raspberry_pi_setup()` (lines 48-75): `False` unless
the system is linux, otherwise the result of the file probes. -/
def _is_raspberry_pi_setup (env : HostEnv) : Bool :=
  if env.system = "linux" then env.piProbe else false

/-- `PlatformDetector._detect_audio_system()` (lines 77-91). -/
def _detect_audio_system (env : HostEnv) : String :=
  if env.system = "darwin" then "coreaudio"
  else if env.system = "linux" then
    if env.pulseaudioPresent then "pulseaudio"
    else if env.alsaPresent then "alsa"
    else "alsa"
  else "unknown"

/-- `PlatformDetector._has_gui_environment()` (lines 93-101). -/
def _has_gui_environment (env : HostEnv) : Bool :=
  if env.system = "darwin" then true
  else if env.system = "linux" then env.displaySet || env.waylandSet
  else false

/-- `PlatformDetector._get_spotifyd_binary_name()` (lines 103-118): the
platform-matched asset name, or `raise RuntimeError(f"Unsupported platform:
{self._system}")` for any system that is neither darwin nor linux. -/
def _get_spotifyd_binary_name (env : HostEnv) : Except String String :=
  if env.system = "darwin" then
    if env.machine = "arm64" then Except.ok "spotifyd-macos-arm64"
    else Except.ok "spotifyd-macos-x86_64"
  else if env.system = "linux" then
    if _is_raspberry_pi_setup env then Except.ok "spotifyd-linux-aarch64"
    else if strContains env.machine "aarch64" || strContains env.machine "arm64" then
      Except.ok "spotifyd-linux-aarch64"
    else Except.ok "spotifyd-linux-x86_64"
  else Except.error ("Unsupported platform: " ++ env.system)

/-- The `_platform_info` record a successfully constructed `PlatformDetector`
holds (lines 20-30). -/
structure PlatformInfo where
  system : String
  machine : String
  isRaspberryPi : Bool
  isMacos : Bool
  isLinux : Bool
  isArm : Bool
  audioSystem : String
  hasGui : Bool
  spotifydBinaryName : String
deriving DecidableEq

/-- `PlatformDetector.__init__()` (lines 17-30).  The constructor eagerly
fills `_platform_info`, ending with `spotifyd_binary_name =
self._get_spotifyd_binary_name()`; the `RuntimeError` raised there for an
unsupported system propagates out of the constructor (nothing catches it), so
construction itself faults — modelled as `Except.error`. -/
def PlatformDetector.init (env : HostEnv) : Except String PlatformInfo :=
  match _get_spotifyd_binary_name env with
  | Except.error e => Except.error e
  | Except.ok nm =>
    Except.ok
      { system := env.system
        machine := env.machine
        isRaspberryPi := _is_raspberry_pi_setup env
        isMacos := decide (env.system = "darwin")
        isLinux := decide (env.system = "linux")
        isArm := strContains env.machine "arm" || strContains env.machine "aarch64"
        audioSystem := _detect_audio_system env
        hasGui := _has_gui_environment env
        spotifydBinaryName := nm }

/-- `PlatformDetector.get_spotifyd_binary_name()` (lines 145-147): a plain
dictionary read on the constructed detector; it can never fault. -/
def get_spotifyd_binary_name (info : PlatformInfo) : String :=
  info.spotifydBinaryName

/-- A host whose OS family is neither macOS nor Linux. -/
def windowsEnv : HostEnv :=
  { system := "windows", machine := "amd64", piProbe := false,
    pulseaudioPresent := false, alsaPresent := false,
    displaySet := false, waylandSet := false }

/-! ## Sample values used by witnesses -/

def pcSample : PCState := PlaybackController.initState (some "device-1")

def pcSampleNoDevice : PCState := PlaybackController.initState none

def pcSampleRamping : PCState := { pcSample with volumeRampActive := true }

def dmSampleIdle : DMState := { installed := true, runningPid := none }

def installEnvSample : InstallEnv :=
  { assets := [("spotifyd-linux-x86_64.tar.gz", "https://example.invalid/a")],
    binaryName := "spotifyd-linux-x86_64", downloadExtractOk := true }

def ownSample : Playlist :=
  { id := "pl-x", name := "Road Trip 2023", owner := "me", trackCount := 12,
    isOwn := true, isPublic := true, description := "", uri := "spotify:playlist:pl-x" }

def publicSample : Playlist :=
  { id := "pl-x", name := "Road Trip 2023", owner := "someone", trackCount := 12,
    isOwn := false, isPublic := true, description := "", uri := "spotify:playlist:pl-x" }

/-! ## Claim C1 -/

/-- Claim C1: for every integer volume `v`, `set_volume v` succeeds and
updates the session volume iff `0 ≤ v ≤ 100`; outside that range it returns
failure, leaves the state unchanged, and issues no remote API request. -/
theorem set_volume_in_range_iff (v : Int) (s : PCState) :
    ((set_volume v s).ok = true ↔ (0 ≤ v ∧ v ≤ 100))
    ∧ ((set_volume v s).ok = true →
        (set_volume v s).state = { s with currentVolume := v }
        ∧ (set_volume v s).calls = [ApiCall.setVolume v s.deviceId])
    ∧ ((set_volume v s).ok = false →
        (set_volume v s).state = s ∧ (set_volume v s).calls = []) := by
  by_cases h : 0 ≤ v ∧ v ≤ 100 <;> simp [set_volume, h]

/-- Witness for C1 at `v = 50` (accepted) and `v = 150` (rejected, state
unchanged). -/
theorem set_volume_in_range_iff_witness :
    (set_volume 50 pcSample).ok = true
    ∧ (set_volume 150 pcSample).state = pcSample
    ∧ (set_volume 150 pcSample).calls = [] :=
  ⟨(set_volume_in_range_iff 50 pcSample).1.mpr (by decide),
   ((set_volume_in_range_iff 150 pcSample).2.2 (by decide)).1,
   ((set_volume_in_range_iff 150 pcSample).2.2 (by decide)).2⟩

/-! ## Claim C5 -/

/-- Claim C5: `start_volume_ramp` called while a ramp is already active
returns failure without starting a worker, issuing a call, or modifying any
session state, preserving the at-most-one-ramp invariant. -/
theorem start_volume_ramp_rejects_when_active
    (sv ev d inc : Int) (s : PCState) (h : s.volumeRampActive = true) :
    start_volume_ramp sv ev d inc s
      = { state := s, calls := [], ok := false, launched := none } := by
  simp [start_volume_ramp, h]

/-- Witness for C5 on a session with an active ramp. -/
theorem start_volume_ramp_rejects_when_active_witness :
    start_volume_ramp 10 80 300 2 pcSampleRamping
      = { state := pcSampleRamping, calls := [], ok := false, launched := none } :=
  start_volume_ramp_rejects_when_active 10 80 300 2 pcSampleRamping (by decide)

/-! ## Claim C9 (corrected) -/

/-- Counterexample to claim C9 as stated: with no ramp active,
`stop_volume_ramp` is a no-op but returns `False` (the code logs "No active
volume ramp to stop" and returns `False`), not success. -/
theorem stop_volume_ramp_inactive_cex :
    stop_volume_ramp pcSample = (pcSample, false) := by decide

/-- Claim C9 as amended: `stop_volume_ramp` cancels an active ramp (clears
the flag, returns `True`); with no active ramp it leaves all state unchanged
but returns `False`; its effect on state is idempotent — a repeated call
changes nothing further. -/
theorem stop_volume_ramp_idempotent_on_state (s : PCState) :
    ((stop_volume_ramp s).1.volumeRampActive = false)
    ∧ (s.volumeRampActive = true →
        stop_volume_ramp s = ({ s with volumeRampActive := false }, true))
    ∧ (s.volumeRampActive = false → stop_volume_ramp s = (s, false))
    ∧ (stop_volume_ramp (stop_volume_ramp s).1 = ((stop_volume_ramp s).1, false)) := by
  by_cases h : s.volumeRampActive <;> simp [stop_volume_ramp, h]

/-- Witness for the amended C9: cancelling an active ramp, then calling again. -/
theorem stop_volume_ramp_idempotent_on_state_witness :
    (stop_volume_ramp pcSampleRamping
        = ({ pcSampleRamping with volumeRampActive := false }, true))
    ∧ (stop_volume_ramp (stop_volume_ramp pcSampleRamping).1
        = ((stop_volume_ramp pcSampleRamping).1, false)) :=
  ⟨(stop_volume_ramp_idempotent_on_state pcSampleRamping).2.1 (by decide),
   (stop_volume_ramp_idempotent_on_state pcSampleRamping).2.2.2⟩

/-! ## Claim C10 -/

/-- Claim C10: with no `device_id` argument and no device selected on the
session, `start_playback` returns failure without issuing any remote playback
call and without changing the session state. -/
theorem start_playback_no_device (trackUris : List String) (s : PCState)
    (h : s.deviceId = none) :
    start_playback trackUris none s = { state := s, calls := [], ok := false } := by
  simp [start_playback, pyTruthy, h]

/-- Witness for C10 on a fresh controller with no device. -/
theorem start_playback_no_device_witness :
    start_playback ["spotify:track:t1"] none pcSampleNoDevice
      = { state := pcSampleNoDevice, calls := [], ok := false } :=
  start_playback_no_device ["spotify:track:t1"] pcSampleNoDevice (by decide)

/-! ## Claim C6 -/

/-- Claim C6: the daemon lifecycle operations are idempotent in the
already-satisfied state — `stop_spotifyd` with no daemon process found
returns success sending no signal, and `install_spotifyd` when already
installed and not forced returns success with no network or filesystem
effect. -/
theorem daemon_stop_install_idempotent (s : DMState) (grace : Bool)
    (env : InstallEnv) :
    (s.runningPid = none → stop_spotifyd s grace = ([], true))
    ∧ (s.installed = true → install_spotifyd s false env = ([], true)) := by
  constructor
  · intro h
    simp [stop_spotifyd, get_spotifyd_pid, h]
  · intro h
    simp [install_spotifyd, h]

/-- Witness for C6: an installed binary with no running daemon process. -/
theorem daemon_stop_install_idempotent_witness :
    stop_spotifyd dmSampleIdle false = ([], true)
    ∧ install_spotifyd dmSampleIdle false installEnvSample = ([], true) :=
  ⟨(daemon_stop_install_idempotent dmSampleIdle false installEnvSample).1 (by decide),
   (daemon_stop_install_idempotent dmSampleIdle false installEnvSample).2 (by decide)⟩

/-! ## Deduplication lemmas for claim C2 -/

/-- The dedup loop never lengthens the list. -/
theorem dedup_by_id_length_le (l : List Playlist) :
    ∀ seenIds : List String, (dedup_by_id seenIds l).length ≤ l.length := by
  induction l with
  | nil => intro seenIds; simp [dedup_by_id]
  | cons p rest ih =>
    intro seenIds
    by_cases h : p.id ∈ seenIds
    · simp only [dedup_by_id, if_pos h]
      exact Nat.le_succ_of_le (ih seenIds)
    · simp only [dedup_by_id, if_neg h, List.length_cons]
      exact Nat.succ_le_succ (ih (p.id :: seenIds))

/-- For an id not in the seen set, the first record the dedup output holds for
it is the first record the input holds for it. -/
theorem dedup_by_id_find? (Y : String) (l : List Playlist) :
    ∀ seenIds : List String, Y ∉ seenIds →
      (dedup_by_id seenIds l).find? (fun p => decide (p.id = Y))
        = l.find? (fun p => decide (p.id = Y)) := by
  induction l with
  | nil => intro seenIds _; rfl
  | cons p rest ih =>
    intro seenIds hY
    rw [dedup_by_id]
    by_cases h : p.id ∈ seenIds
    · have hne : ¬ p.id = Y := fun he => hY (he ▸ h)
      rw [if_pos h, List.find?_cons_of_neg rest (by simpa using hne), ih seenIds hY]
    · rw [if_neg h]
      by_cases he : p.id = Y
      · rw [List.find?_cons_of_pos _ (by simpa using he),
          List.find?_cons_of_pos _ (by simpa using he)]
      · have hY2 : Y ∉ p.id :: seenIds := by
          intro hmem
          rcases List.mem_cons.mp hmem with h1 | h2
          · exact he h1.symm
          · exact hY h2
        rw [List.find?_cons_of_neg _ (by simpa using he),
          List.find?_cons_of_neg rest (by simpa using he)]
        exact ih (p.id :: seenIds) hY2

/-- The dedup output has pairwise distinct ids, and none of them is in the
initial seen set. -/
theorem dedup_by_id_nodup (l : List Playlist) :
    ∀ seenIds : List String,
      ((dedup_by_id seenIds l).map Playlist.id).Nodup
      ∧ ∀ y ∈ (dedup_by_id seenIds l).map Playlist.id, y ∉ seenIds := by
  induction l with
  | nil => intro seenIds; simp [dedup_by_id]
  | cons p rest ih =>
    intro seenIds
    by_cases h : p.id ∈ seenIds
    · simpa only [dedup_by_id, if_pos h] using ih seenIds
    · have hrec := ih (p.id :: seenIds)
      constructor
      · simp only [dedup_by_id, if_neg h, List.map_cons, List.nodup_cons]
        refine ⟨fun hmem => ?_, hrec.1⟩
        exact (hrec.2 _ hmem) (List.mem_cons_self _ _)
      · intro y hy
        simp only [dedup_by_id, if_neg h, List.map_cons, List.mem_cons] at hy
        rcases hy with rfl | hy
        · exact h
        · exact fun hseen => (hrec.2 y hy) (List.mem_cons_of_mem _ hseen)

/-- In a list with pairwise distinct ids, an id that occurs at all occurs in
exactly one record. -/
theorem countP_id_eq_one (X : String) (l : List Playlist)
    (hnd : (l.map Playlist.id).Nodup) (hmem : X ∈ l.map Playlist.id) :
    l.countP (fun p => decide (p.id = X)) = 1 := by
  induction l with
  | nil => simp at hmem
  | cons p rest ih =>
    rw [List.map_cons, List.nodup_cons] at hnd
    rcases hnd with ⟨hp, hrest⟩
    rw [List.map_cons, List.mem_cons] at hmem
    rcases hmem with he | hmem
    · have h0 : rest.countP (fun q => decide (q.id = X)) = 0 := by
        rw [List.countP_eq_zero]
        intro q hq hqx
        rw [decide_eq_true_iff] at hqx
        exact hp (he ▸ hqx ▸ List.mem_map_of_mem Playlist.id hq)
      rw [List.countP_cons, h0]
      simp [he]
    · have hne : ¬ p.id = X := fun habs => hp (habs ▸ hmem)
      rw [List.countP_cons, ih hrest hmem]
      simp [hne]

/-! ## Claim C2 -/

/-- Claim C2: when the own-playlists branch and the public branch of
`search_playlists` both return a record with id `X` (within the length caps
the code itself imposes on the two branches), the merged result contains
exactly one entry with id `X`, namely the first own-branch entry with that
id; in general every id occurs at most once and the first occurrence in the
own-then-public concatenation wins. -/
theorem search_playlists_dedup_first_wins
    (userPlaylists publicPlaylists : List Playlist) (limit : Nat) (X : String)
    (hu : userPlaylists.length ≤ limit / 2)
    (hp : publicPlaylists.length ≤ limit - userPlaylists.length)
    (hXu : X ∈ userPlaylists.map Playlist.id)
    (_hXp : X ∈ publicPlaylists.map Playlist.id) :
    (search_playlists userPlaylists publicPlaylists limit).countP
        (fun p => decide (p.id = X)) = 1
    ∧ (search_playlists userPlaylists publicPlaylists limit).find?
          (fun p => decide (p.id = X))
        = userPlaylists.find? (fun p => decide (p.id = X))
    ∧ ((search_playlists userPlaylists publicPlaylists limit).map Playlist.id).Nodup
    ∧ ∀ Y : String,
        (search_playlists userPlaylists publicPlaylists limit).find?
            (fun p => decide (p.id = Y))
          = (userPlaylists ++ publicPlaylists).find? (fun p => decide (p.id = Y)) := by
  have hlen : (userPlaylists ++ publicPlaylists).length ≤ limit := by
    rw [List.length_append]
    omega
  have htake : search_playlists userPlaylists publicPlaylists limit
      = dedup_by_id [] (userPlaylists ++ publicPlaylists) := by
    unfold search_playlists
    exact List.take_of_length_le (le_trans (dedup_by_id_length_le _ _) hlen)
  have hfind : ∀ Y : String,
      (dedup_by_id [] (userPlaylists ++ publicPlaylists)).find?
          (fun p => decide (p.id = Y))
        = (userPlaylists ++ publicPlaylists).find? (fun p => decide (p.id = Y)) :=
    fun Y => dedup_by_id_find? Y _ [] (List.not_mem_nil Y)
  have hnodup := dedup_by_id_nodup (userPlaylists ++ publicPlaylists) []
  have huser : (userPlaylists ++ publicPlaylists).find? (fun p => decide (p.id = X))
      = userPlaylists.find? (fun p => decide (p.id = X)) := by
    rw [List.find?_append]
    obtain ⟨q, hq, hqid⟩ := List.mem_map.mp hXu
    have hsome : (userPlaylists.find? (fun p => decide (p.id = X))).isSome := by
      rw [List.find?_isSome]
      exact ⟨q, hq, by simp [hqid]⟩
    obtain ⟨a, ha⟩ := Option.isSome_iff_exists.mp hsome
    rw [ha]
    rfl
  have hXmem : X ∈ (dedup_by_id [] (userPlaylists ++ publicPlaylists)).map Playlist.id := by
    obtain ⟨q, hq, hqid⟩ := List.mem_map.mp hXu
    have hsome : (userPlaylists.find? (fun p => decide (p.id = X))).isSome := by
      rw [List.find?_isSome]
      exact ⟨q, hq, by simp [hqid]⟩
    obtain ⟨a, ha⟩ := Option.isSome_iff_exists.mp hsome
    have hfd : (dedup_by_id [] (userPlaylists ++ publicPlaylists)).find?
        (fun p => decide (p.id = X)) = some a := by
      rw [hfind X, huser, ha]
    have haid : a.id = X := by
      have := List.find?_some hfd
      rwa [decide_eq_true_iff] at this
    exact haid ▸ List.mem_map_of_mem Playlist.id (List.mem_of_find?_eq_some hfd)
  refine ⟨?_, ?_, ?_, ?_⟩
  · rw [htake]
    exact countP_id_eq_one X _ hnodup.1 hXmem
  · rw [htake, hfind X, huser]
  · rw [htake]
    exact hnodup.1
  · intro Y
    rw [htake, hfind Y]

/-- Witness for C2: one own playlist and one public playlist sharing the id
`pl-x`, limit 10. -/
theorem search_playlists_dedup_first_wins_witness :
    (search_playlists [ownSample] [publicSample] 10).countP
        (fun p => decide (p.id = "pl-x")) = 1
    ∧ (search_playlists [ownSample] [publicSample] 10).find?
          (fun p => decide (p.id = "pl-x"))
        = [ownSample].find? (fun p => decide (p.id = "pl-x"))
    ∧ ((search_playlists [ownSample] [publicSample] 10).map Playlist.id).Nodup
    ∧ (search_playlists [ownSample] [publicSample] 10).find?
          (fun p => decide (p.id = "pl-x"))
        = ([ownSample] ++ [publicSample]).find? (fun p => decide (p.id = "pl-x")) := by
  have h := search_playlists_dedup_first_wins [ownSample] [publicSample] 10 "pl-x"
    (by decide) (by decide) (by decide) (by decide)
  exact ⟨h.1, h.2.1, h.2.2.1, h.2.2.2 "pl-x"⟩

/-! ## Pagination lemma for claim C4 -/

/-- Complete run of the pagination loop: with enough fuel it returns all
present URIs from `offset` on, in order, and issues
`(length - offset - 1) / 100 + 1` page fetches. -/
theorem get_playlist_tracks_loop_spec (tracks : List (Option String)) :
    ∀ (fuel offset : Nat) (acc : List String) (fetches : Nat),
      1 ≤ fuel → tracks.length ≤ offset + 100 * fuel →
      get_playlist_tracks_loop tracks fuel offset acc fetches
        = some (acc ++ (tracks.drop offset).filterMap id,
                fetches + ((tracks.length - offset - 1) / 100 + 1)) := by
  intro fuel
  induction fuel with
  | zero => intro offset acc fetches h1 _; omega
  | succ f ih =>
    intro offset acc fetches _ hlen
    by_cases hnext : offset + 100 < tracks.length
    · have hf : 1 ≤ f := by omega
      simp only [get_playlist_tracks_loop, playlist_tracks_page, decide_eq_true_eq]
      rw [if_pos hnext, ih (offset + 100) _ _ hf (by omega)]
      have hlists : (acc ++ ((tracks.drop offset).take 100).filterMap id)
            ++ (tracks.drop (offset + 100)).filterMap id
          = acc ++ (tracks.drop offset).filterMap id := by
        rw [List.append_assoc]
        congr 1
        rw [← List.filterMap_append]
        congr 1
        rw [← List.drop_drop]
        exact List.take_append_drop 100 (tracks.drop offset)
      simp only [Option.some.injEq, Prod.mk.injEq]
      exact ⟨hlists, by omega⟩
    · simp only [get_playlist_tracks_loop, playlist_tracks_page, decide_eq_true_eq]
      rw [if_neg hnext]
      have htk : (tracks.drop offset).take 100 = tracks.drop offset := by
        apply List.take_of_length_le
        rw [List.length_drop]
        omega
      simp only [Option.some.injEq, Prod.mk.injEq]
      exact ⟨by rw [htk], by omega⟩

/-! ## Claim C4 -/

/-- Claim C4: on a playlist of 250 tracks (page size 100),
`get_playlist_tracks` finishes in exactly 3 page fetches — for any iteration
budget of at least 3 — and returns the 250 track URIs in the playlist's
original order. -/
theorem get_playlist_tracks_pagination (uris : List String) (fuel : Nat)
    (hlen : uris.length = 250) (hfuel : 3 ≤ fuel) :
    get_playlist_tracks (uris.map some) fuel = some (uris, 3) := by
  unfold get_playlist_tracks
  rw [get_playlist_tracks_loop_spec (uris.map some) fuel 0 [] 0 (by omega)
    (by rw [List.length_map, hlen]; omega)]
  rw [List.drop_zero, List.filterMap_map]
  have hcomp : (id ∘ some : String → Option String) = some := rfl
  rw [hcomp, List.filterMap_some, List.length_map, hlen]
  rfl

/-- Witness for C4: a concrete 250-track playlist. -/
theorem get_playlist_tracks_pagination_witness :
    get_playlist_tracks ((List.replicate 250 "spotify:track:t").map some) 3
      = some (List.replicate 250 "spotify:track:t", 3) :=
  get_playlist_tracks_pagination (List.replicate 250 "spotify:track:t") 3
    (by rw [List.length_replicate]) (by decide)

/-! ## Ramp worker lemmas for claim C3 -/

/-- Run of the worker started by `startRamp(10, 80, 300, 2)` under a
cancellation arriving at iteration `k`: it terminates within the remaining
iteration budget, clears the active flag, and leaves the session volume at
the last applied step `min (10 + 2k) 80` (for `k ≥ 35` the ramp completes at
80 before the cancellation is ever observed). -/
theorem ramp_cancel_run (k : Nat) :
    ∀ (fuel n : Nat) (current : Int) (s : PCState),
      n ≤ k → n ≤ 35 → current = 10 + 2 * (n : Int) → s.currentVolume = current →
      35 - n ≤ fuel →
      ∃ sf, volume_ramp_worker (cancelAt k) 80 2 fuel n current s = some sf
        ∧ sf.currentVolume = min (10 + 2 * (k : Int)) 80
        ∧ sf.volumeRampActive = false := by
  intro fuel
  induction fuel with
  | zero =>
    intro n current s hnk hn35 hcur hvol hfuel
    have hn : n = 35 := by omega
    subst hn
    have hc : current = 80 := by omega
    refine ⟨{ s with volumeRampActive := false }, ?_, ?_, rfl⟩
    · rw [volume_ramp_worker, if_neg]
      intro hcond
      omega
    · show s.currentVolume = min (10 + 2 * (k : Int)) 80
      rw [hvol, hc]
      omega
  | succ f ih =>
    intro n current s hnk hn35 hcur hvol hfuel
    by_cases hcond : current < 80 ∧ cancelAt k n = false
    · have hne : ¬ n = k := by
        have := hcond.2
        simpa [cancelAt] using this
      have hn35lt : n < 35 := by omega
      rw [volume_ramp_worker, if_pos hcond]
      have hc2 : min (current + 2) 80 = 10 + 2 * ((n + 1 : Nat) : Int) := by
        push_cast
        omega
      have hrange : 0 ≤ min (current + 2) 80 ∧ min (current + 2) 80 ≤ 100 := by omega
      have hsv : (set_volume (min (current + 2) 80) s).state
          = { s with currentVolume := min (current + 2) 80 } := by
        simp [set_volume, hrange]
      simp only [hsv]
      exact ih (n + 1) (min (current + 2) 80) _ (by omega) (by omega) hc2 rfl (by omega)
    · refine ⟨{ s with volumeRampActive := false }, ?_, ?_, rfl⟩
      · rw [volume_ramp_worker, if_neg hcond]
      · show s.currentVolume = min (10 + 2 * (k : Int)) 80
        rw [hvol, hcur]
        rcases not_and_or.mp hcond with h80 | hcanc
        · omega
        · have ht : cancelAt k n = true := by
            cases hb : cancelAt k n
            · exact absurd hb hcanc
            · rfl
          have hk : n = k := by simpa [cancelAt] using ht
          subst hk
          omega

/-! ## Claim C3 -/

/-- Claim C3: after `start_volume_ramp 10 80 300 2` on a fresh session, the
worker run to completion ends with volume exactly 80 and the ramp-active
flag cleared; under a cancellation observed at any iteration `k` it ends with
the volume at the last applied step `min (10 + 2k) 80` and the flag cleared
— in both terminal states the flag clears. -/
theorem volume_ramp_terminal_states :
    ((volume_ramp_worker noCancel 80 2 35 0 10 rampStartState).map
        (fun sf => (sf.currentVolume, sf.volumeRampActive)) = some (80, false))
    ∧ ∀ k : Nat, ∃ sf,
        volume_ramp_worker (cancelAt k) 80 2 35 0 10 rampStartState = some sf
        ∧ sf.currentVolume = min (10 + 2 * (k : Int)) 80
        ∧ sf.volumeRampActive = false := by
  constructor
  · decide
  · intro k
    exact ramp_cancel_run k 35 0 10 rampStartState (Nat.zero_le k) (by omega)
      (by norm_num) (by decide) (by omega)

/-! ## Floor-division lemmas for claim C7 -/

/-- Python floor division is unchanged under negating both operands. -/
theorem fdiv_neg_neg : ∀ (a b : Int), Int.fdiv (-a) (-b) = Int.fdiv a b
  | .ofNat 0, b => by
    show Int.fdiv (-(0 : Int)) (-b) = Int.fdiv (0 : Int) b
    rw [neg_zero, Int.zero_fdiv, Int.zero_fdiv]
  | .ofNat (m + 1), .ofNat 0 => by
    show (0 : Int) = Int.ofNat ((m + 1) / 0)
    rw [Nat.div_zero]
    rfl
  | .ofNat (m + 1), .ofNat (n + 1) => rfl
  | .ofNat (m + 1), .negSucc n => rfl
  | .negSucc m, .ofNat 0 => by
    show Int.ofNat ((m + 1) / 0) = (0 : Int)
    rw [Nat.div_zero]
    rfl
  | .negSucc m, .ofNat (n + 1) => rfl
  | .negSucc m, .negSucc n => rfl

/-- For a positive divisor, `Int.fdiv` is the rational floor of the exact
quotient. -/
theorem fdiv_eq_floor_of_pos (a : Int) {b : Int} (hb : 0 < b) :
    Int.fdiv a b = ⌊(a : ℚ) / (b : ℚ)⌋ := by
  symm
  rw [Int.floor_eq_iff]
  have hbq : (0 : ℚ) < (b : ℚ) := by exact_mod_cast hb
  constructor
  · rw [le_div_iff₀ hbq]
    have h1 : b * Int.fdiv a b ≤ a := by
      have h2 := Int.fmod_add_fdiv a b
      have h3 := Int.fmod_nonneg' a hb
      linarith
    calc ((Int.fdiv a b : ℤ) : ℚ) * (b : ℚ)
        = ((b * Int.fdiv a b : ℤ) : ℚ) := by push_cast; ring
      _ ≤ (a : ℚ) := by exact_mod_cast h1
  · rw [div_lt_iff₀ hbq]
    have h1 : a < (Int.fdiv a b + 1) * b := Int.lt_fdiv_add_one_mul_self a hb
    calc (a : ℚ) < (((Int.fdiv a b + 1) * b : ℤ) : ℚ) := by exact_mod_cast h1
      _ = (((Int.fdiv a b : ℤ) : ℚ) + 1) * (b : ℚ) := by push_cast; ring

/-- Python floor division `a // b` (for `b ≠ 0`) is the rational floor of
the exact quotient. -/
theorem fdiv_eq_floor (a : Int) {b : Int} (hb : b ≠ 0) :
    Int.fdiv a b = ⌊(a : ℚ) / (b : ℚ)⌋ := by
  rcases lt_or_gt_of_ne hb with hneg | hpos
  · rw [← fdiv_neg_neg a b, fdiv_eq_floor_of_pos (-a) (by omega)]
    congr 1
    push_cast
    rw [neg_div_neg_eq]
  · exact fdiv_eq_floor_of_pos a hpos

/-! ## Claim C7 (corrected) -/

/-- Counterexample to claim C7 as stated: `start_volume_ramp 150 80 300 2`
succeeds and launches the asynchronous worker, but the session's current
volume is not set to the start volume 150 — the internal `set_volume(150)`
is rejected by the range check and the volume stays at its previous value
50. -/
theorem start_volume_ramp_out_of_range_start_cex :
    (start_volume_ramp 150 80 300 2 pcSample).ok = true
    ∧ (start_volume_ramp 150 80 300 2 pcSample).launched.isSome = true
    ∧ ¬ (start_volume_ramp 150 80 300 2 pcSample).state.currentVolume = 150
    ∧ (start_volume_ramp 150 80 300 2 pcSample).state.currentVolume = 50 := by
  refine ⟨by decide, by decide, by decide, by decide⟩

/-- Claim C7 as amended: for all integer inputs with a nonzero increment
(a zero increment makes the floor division raise, and the call merely
returns failure), a `start_volume_ramp` call on a session with no active
ramp succeeds, computes `totalSteps = ⌊(end - start) / increment⌋` and hands
the worker `delay = duration / totalSteps` when `totalSteps > 0` and the
fixed minimum 1 otherwise; the session's current volume is set to
`startVolume` synchronously before the asynchronous loop begins provided
`0 ≤ startVolume ≤ 100` — an out-of-range start volume is rejected by the
volume setter and the volume stays unchanged, although the ramp still
starts. -/
theorem start_volume_ramp_computation (sv ev d inc : Int) (s : PCState)
    (hact : s.volumeRampActive = false) (hinc : inc ≠ 0) :
    (start_volume_ramp sv ev d inc s).ok = true
    ∧ (start_volume_ramp sv ev d inc s).launched
        = some { startVolume := sv, endVolume := ev, increment := inc,
                 delay :=
                   if 0 < ⌊((ev : ℚ) - (sv : ℚ)) / (inc : ℚ)⌋ then
                     (d : ℚ) / ((⌊((ev : ℚ) - (sv : ℚ)) / (inc : ℚ)⌋ : ℤ) : ℚ)
                   else 1 }
    ∧ (start_volume_ramp sv ev d inc s).state.volumeRampActive = true
    ∧ (start_volume_ramp sv ev d inc s).state.currentVolume
        = if 0 ≤ sv ∧ sv ≤ 100 then sv else s.currentVolume := by
  have hfd : Int.fdiv (ev - sv) inc = ⌊((ev : ℚ) - (sv : ℚ)) / (inc : ℚ)⌋ := by
    rw [fdiv_eq_floor _ hinc]
    congr 2
    push_cast
    ring
  refine ⟨?_, ?_, ?_, ?_⟩
  · simp [start_volume_ramp, hact, hinc]
  · simp only [start_volume_ramp, hact, Bool.false_eq_true, if_false, hinc, if_neg hinc]
    rw [hfd]
  · simp [start_volume_ramp, hact, hinc]
  · by_cases hr : 0 ≤ sv ∧ sv ≤ 100
    · simp [start_volume_ramp, hact, hinc, set_volume, hr]
    · simp [start_volume_ramp, hact, hinc, set_volume, hr]

/-- Witness for the amended C7 at the documented defaults
`startRamp(10, 80, 300, 2)` on a fresh session. -/
theorem start_volume_ramp_computation_witness :
    (start_volume_ramp 10 80 300 2 pcSample).ok = true
    ∧ (start_volume_ramp 10 80 300 2 pcSample).launched
        = some { startVolume := 10, endVolume := 80, increment := 2,
                 delay :=
                   if 0 < ⌊((80 : ℚ) - (10 : ℚ)) / (2 : ℚ)⌋ then
                     (300 : ℚ) / ((⌊((80 : ℚ) - (10 : ℚ)) / (2 : ℚ)⌋ : ℤ) : ℚ)
                   else 1 }
    ∧ (start_volume_ramp 10 80 300 2 pcSample).state.volumeRampActive = true
    ∧ (start_volume_ramp 10 80 300 2 pcSample).state.currentVolume
        = if (0 : Int) ≤ 10 ∧ (10 : Int) ≤ 100 then 10 else pcSample.currentVolume :=
  start_volume_ramp_computation 10 80 300 2 pcSample (by decide) (by decide)

/-! ## Claim C8 (corrected) -/

/-- Counterexample to claim C8 as stated: on an unsupported OS family the
`PlatformUnsupported` fault is raised already while detecting the platform —
`PlatformDetector.__init__` eagerly computes the daemon asset name at line 30
and the `RuntimeError` escapes the constructor — so the fault does not wait
for a caller to request the asset name, and no constructed profile exists on
which the asset name could ever be requested. -/
theorem platform_init_faults_on_windows_cex :
    PlatformDetector.init windowsEnv = Except.error "Unsupported platform: windows" := by
  rfl

/-- Claim C8 as amended: unsupported operating-system families (neither
macOS nor Linux) raise the `PlatformUnsupported` fault during platform
detection itself, because the constructor computes the daemon asset name
eagerly; a detector is successfully constructed exactly for the supported
families, and on a constructed detector requesting the asset name is a plain
field read that reproduces the platform computation and never faults. -/
theorem platform_fault_at_detection (env : HostEnv) :
    ((PlatformDetector.init env).isOk
        = (env.system == "darwin" || env.system == "linux"))
    ∧ Except.map get_spotifyd_binary_name (PlatformDetector.init env)
        = _get_spotifyd_binary_name env := by
  have hmap : Except.map get_spotifyd_binary_name (PlatformDetector.init env)
      = _get_spotifyd_binary_name env := by
    rcases h : _get_spotifyd_binary_name env with e | nm <;>
      simp [PlatformDetector.init, h, Except.map, get_spotifyd_binary_name]
  have hname : (_get_spotifyd_binary_name env).isOk
      = (env.system == "darwin" || env.system == "linux") := by
    by_cases h1 : env.system = "darwin" <;> by_cases h2 : env.system = "linux"
    · simp only [_get_spotifyd_binary_name, h1, if_true]
      rw [apply_ite Except.isOk]
      simp [h1, Except.isOk, Except.toBool]
    · simp only [_get_spotifyd_binary_name, h1, if_true]
      rw [apply_ite Except.isOk]
      simp [h1, Except.isOk, Except.toBool]
    · simp only [_get_spotifyd_binary_name, h1, if_false, h2, if_true]
      by_cases h3 : _is_raspberry_pi_setup env = true <;>
        by_cases h4 : (strContains env.machine "aarch64" || strContains env.machine "arm64") = true <;>
        simp [h2, h3, h4, Except.isOk, Except.toBool]
    · simp [_get_spotifyd_binary_name, h1, h2, Except.isOk, Except.toBool, beq_iff_eq]
  refine ⟨?_, hmap⟩
  rw [← hname]
  rcases h : _get_spotifyd_binary_name env with e | nm <;>
    simp [PlatformDetector.init, h, Except.isOk, Except.toBool]
